import Mathlib

/-!
# Verification of the 16score vMix server link subsystem

A shallow embedding of the API-link directory, the public resolver
(`src/routes/public.js`), the authenticated link-manager routes and the
direct livescore routes, together with proofs of the specified
properties.

The Mongo collection of `ApiLink` documents is modelled as a list (Mongo
`findOne` without a sort returns the first match in natural order, which
`List.find?` mirrors).  The dynamically named snapshot collections are
modelled as an association list from collection name to document list.
JSON documents are modelled by the inductive `JsonVal`.
-/

namespace VmixServer

/-- A JSON-like value, as stored in a match snapshot document.
(Floating point numbers do not occur in the modelled code paths, so
numbers are integers here.) -/
inductive JsonVal where
  | null
  | bool (b : Bool)
  | num (n : Int)
  | str (s : String)
  | arr (elems : List JsonVal)
  | obj (fields : List (String × JsonVal))

/-- JavaScript truthiness on a defined value: `null`, `false`, `0` and
`""` are falsy; arrays and objects are always truthy. -/
def JsonVal.isFalsy : JsonVal → Bool
  | .null => true
  | .bool b => !b
  | .num n => n == 0
  | .str s => s == ""
  | .arr _ => false
  | .obj _ => false

/-- A match snapshot document: a JSON object given by its fields. -/
abbrev MatchDoc := List (String × JsonVal)

/-- Field access `doc.key` on a document: `none` models JavaScript
`undefined` (field absent). -/
def jsGet (doc : MatchDoc) (key : String) : Option JsonVal :=
  (doc.find? (fun p => p.1 == key)).map (·.2)

/-- JavaScript `v || d`: the default is taken when `v` is `undefined`
(absent) or falsy. -/
def jsOr (v : Option JsonVal) (d : JsonVal) : JsonVal :=
  match v with
  | none => d
  | some x => if x.isFalsy then d else x

/-- JavaScript `s.trim()`: remove leading and trailing whitespace. -/
def jsTrim (s : String) : String :=
  String.mk (((s.toList.dropWhile Char.isWhitespace).reverse.dropWhile
    Char.isWhitespace).reverse)

/-- JavaScript `s.replace(re, '_')` where `re` globally matches the
hyphen character: a global single-character replacement, i.e. a
character-wise map. -/
def hyphensToUnderscores (s : String) : String :=
  String.mk (s.toList.map (fun c => if c = '-' then '_' else c))

/-- An `ApiLink` document, per the mongoose schema in the `ApiLink`
model file (`createdAt`/`updatedAt` timestamps are not read by any
modelled route and are omitted).  `lastAccessed` is a nullable date,
modelled as `Option Int`; its schema default is `null` (`none`) and the
`accessCount` default is `0`. -/
structure ApiLink where
  userId : String
  linkId : String
  matchId : String
  type : String
  isActive : Bool
  lastAccessed : Option Int
  accessCount : Nat
deriving DecidableEq, Repr

/-- The alphabet used by `ApiLink.generateLinkId`. -/
def linkIdChars : String :=
  "ABCDEFGHIJKLMNOPQRSTUVWXYZabcdefghijklmnopqrstuvwxyz0123456789"

/-- `ApiLink.generateLinkId`: sixteen characters, each chosen by
`chars.charAt(Math.floor(Math.random() * chars.length))`.  `rand i`
models the random draw of iteration `i`; the `% length` keeps it in
range exactly as `Math.floor(Math.random() * chars.length)` is. -/
def generateLinkId (rand : Nat → Nat) : String :=
  String.mk ((List.range 16).map
    (fun i => linkIdChars.toList.getD (rand i % linkIdChars.length) 'A'))

/-- The response bodies produced by the modelled routes. -/
inductive RespBody where
  /-- `{success: false, error: msg}` -/
  | err (msg : String)
  /-- `{success: true, matchId, timestamp, data}` (public / livescore). -/
  | dataOk (matchId : Option JsonVal) (timestamp : Option JsonVal) (data : MatchDoc)
  /-- `{success: true, data: apiLink, ...}` (link-manager success). -/
  | linkOk (link : ApiLink)
  /-- `{success: true, message: msg}` -/
  | msgOk (msg : String)

/-- An HTTP response: status code and JSON body. -/
structure Resp where
  status : Nat
  body : RespBody

/-- The store of dynamically named snapshot collections, keyed by
collection name. -/
structure SnapshotStore where
  collections : List (String × List MatchDoc)

/-- `listCollections()`: the names of the existing collections. -/
def SnapshotStore.names (store : SnapshotStore) : List String :=
  store.collections.map (·.1)

/-- The documents of a named collection (empty if absent). -/
def SnapshotStore.docsOf (store : SnapshotStore) (name : String) : List MatchDoc :=
  (((store.collections.find? (fun c => c.1 == name)).map (·.2)).getD [])

/-- The `timestamp` field of a document, as used by the
`sort: { timestamp: -1 }` option (non-numeric or absent sorts as 0). -/
def docTimestamp (doc : MatchDoc) : Int :=
  match jsGet doc "timestamp" with
  | some (.num n) => n
  | _ => 0

/-- `collection.findOne({}, { sort: { timestamp: -1 } })`: the document
with the greatest timestamp, `none` on an empty collection. -/
def findLatest (docs : List MatchDoc) : Option MatchDoc :=
  docs.foldl
    (fun best d =>
      match best with
      | none => some d
      | some b => if docTimestamp d > docTimestamp b then some d else some b)
    none

/-- `ApiLink.findOne({ linkId, isActive: true })`: the first active link
with the given token. -/
def findActiveByToken (db : List ApiLink) (token : String) : Option ApiLink :=
  db.find? (fun l => l.linkId == token && l.isActive)

/-- `ApiLink.findOne({ linkId, userId })`: the first link with the given
token owned by the given caller. -/
def findByTokenAndOwner (db : List ApiLink) (linkId callerId : String) : Option ApiLink :=
  db.find? (fun l => l.linkId == linkId && l.userId == callerId)

/-- `doc.save()` on a link document: persist the updated document.  The
document is identified by its `linkId`, which carries a unique index in
the schema. -/
def saveLink (db : List ApiLink) (upd : ApiLink) : List ApiLink :=
  db.map (fun l => if l.linkId == upd.linkId then upd else l)

/-- The collection name the public resolver derives from a link's
`matchId` (`public.js` lines 66–68): trim surrounding whitespace, then
convert every hyphen to an underscore, then prefix `match_`. -/
def collectionNameOf (matchId : String) : String :=
  "match_" ++ hyphensToUnderscores (jsTrim matchId)

/-- The projection of `public.js` lines 99–114 (and, for the two
filtered types, of the livescore route): extract response data from the
latest document according to the link type. -/
def extractData (ty : String) (latestMatch : MatchDoc) : MatchDoc :=
  if ty == "points_table" then
    [("pointsTable", jsOr (jsGet latestMatch "pointsTable") (.arr [])),
     ("matchSummary", jsOr (jsGet latestMatch "MatchSummary1") (.obj []))]
  else if ty == "alive_status" then
    [("teamStats", jsOr (jsGet latestMatch "TeamStats1") (.arr [])),
     ("matchSummary", jsOr (jsGet latestMatch "MatchSummary1") (.obj []))]
  else if ty == "full" then
    latestMatch
  else []

/-- `GET /api/public/:linkId` (`src/routes/public.js`): look up an
active link by token; update access statistics and save; derive the
collection name; check existence; fetch the latest document; project by
link type.  Returns the response and the link collection after the
request. -/
def publicResolve (db : List ApiLink) (store : SnapshotStore)
    (token : String) (now : Int) : Resp × List ApiLink :=
  match findActiveByToken db token with
  | none => (⟨404, .err "Not found"⟩, db)
  | some apiLink =>
    let updated : ApiLink :=
      { apiLink with accessCount := apiLink.accessCount + 1, lastAccessed := some now }
    let db2 := saveLink db updated
    let collectionName := collectionNameOf apiLink.matchId
    if store.names.contains collectionName then
      match findLatest (store.docsOf collectionName) with
      | none => (⟨404, .err "No match data found"⟩, db2)
      | some latestMatch =>
        (⟨200, .dataOk (jsGet latestMatch "matchId") (jsGet latestMatch "timestamp")
            (extractData apiLink.type latestMatch)⟩, db2)
    else (⟨404, .err "Match data not found"⟩, db2)

/-- The recognized link types. -/
def validTypes : List String := ["full", "alive_status", "points_table"]

/-- The token-generation retry loop of `POST /api/apilinks`:
`while (!isUnique && attempts < 10)`, generating a candidate and
checking `ApiLink.findOne({ linkId })` each round.  `gen n` is the token
produced by the call of round `n`; the result is the first unique token,
or `none` when ten rounds all collide. -/
def generateUniqueLinkId (gen : Nat → String) (db : List ApiLink)
    (attempts : Nat) : Option String :=
  if attempts < 10 then
    let linkId := gen attempts
    if db.any (fun l => l.linkId == linkId) then
      generateUniqueLinkId gen db (attempts + 1)
    else some linkId
  else none
termination_by 10 - attempts
decreasing_by omega

/-- `POST /api/apilinks`: validate presence of `matchId` and `type`
(a missing field or empty string is falsy), validate the type against
the enum, generate a unique token, and create the link with the trimmed
`matchId`.  (`publicUrl` is derived from the request host and is outside
the model.) -/
def createApiLink (gen : Nat → String) (db : List ApiLink) (callerId : String)
    (matchId ty : Option String) : Resp × List ApiLink :=
  match matchId, ty with
  | some m, some t =>
    if m == "" || t == "" then
      (⟨400, .err "Match ID and type are required"⟩, db)
    else if !(validTypes.contains t) then
      (⟨400, .err "Invalid type. Use: full, alive_status, or points_table"⟩, db)
    else
      match generateUniqueLinkId gen db 0 with
      | none => (⟨500, .err "Failed to generate unique link ID"⟩, db)
      | some linkId =>
        let apiLink : ApiLink :=
          { userId := callerId, linkId := linkId, matchId := jsTrim m, type := t,
            isActive := true, lastAccessed := none, accessCount := 0 }
        (⟨201, .linkOk apiLink⟩, db ++ [apiLink])
  | _, _ => (⟨400, .err "Match ID and type are required"⟩, db)

/-- `PATCH /api/apilinks/:linkId/update`: validate presence, validate
the type enum, look up by token and owner (404 on failure), then store
the trimmed `matchId` and the new type. -/
def updateApiLink (db : List ApiLink) (callerId linkId : String)
    (matchId ty : Option String) : Resp × List ApiLink :=
  match matchId, ty with
  | some m, some t =>
    if m == "" || t == "" then
      (⟨400, .err "Match ID and type are required"⟩, db)
    else if !(validTypes.contains t) then
      (⟨400, .err "Invalid type. Use: full, alive_status, or points_table"⟩, db)
    else
      match findByTokenAndOwner db linkId callerId with
      | none => (⟨404, .err "API link not found"⟩, db)
      | some apiLink =>
        let upd := { apiLink with matchId := jsTrim m, type := t }
        (⟨200, .linkOk upd⟩, saveLink db upd)
  | _, _ => (⟨400, .err "Match ID and type are required"⟩, db)

/-- `PATCH /api/apilinks/:linkId/toggle`: look up by token and owner,
then flip `isActive`. -/
def toggleApiLink (db : List ApiLink) (callerId linkId : String) :
    Resp × List ApiLink :=
  match findByTokenAndOwner db linkId callerId with
  | none => (⟨404, .err "API link not found"⟩, db)
  | some apiLink =>
    let upd := { apiLink with isActive := !apiLink.isActive }
    (⟨200, .linkOk upd⟩, saveLink db upd)

/-- `PATCH /api/apilinks/:linkId/status`: the body's `isActive` is
`some b` when it is a boolean and `none` when missing or of another
type (the `typeof isActive !== 'boolean'` check). -/
def setApiLinkStatus (db : List ApiLink) (callerId linkId : String)
    (isActive : Option Bool) : Resp × List ApiLink :=
  match isActive with
  | none => (⟨400, .err "isActive must be a boolean value"⟩, db)
  | some b =>
    match findByTokenAndOwner db linkId callerId with
    | none => (⟨404, .err "API link not found"⟩, db)
    | some apiLink =>
      let upd := { apiLink with isActive := b }
      (⟨200, .linkOk upd⟩, saveLink db upd)

/-- `DELETE /api/apilinks/:linkId`: look up by token and owner; on
success `findByIdAndDelete` removes exactly the found document. -/
def deleteApiLink (db : List ApiLink) (callerId linkId : String) :
    Resp × List ApiLink :=
  match findByTokenAndOwner db linkId callerId with
  | none => (⟨404, .err "API link not found"⟩, db)
  | some _ =>
    (⟨200, .msgOk "API link deleted successfully"⟩,
     db.eraseP (fun l => l.linkId == linkId && l.userId == callerId))

/-- The collection name the direct livescore routes derive from the raw
path parameter: hyphens to underscores and the `match_` prefix, with no
trimming. -/
def rawCollectionName (matchId : String) : String :=
  "match_" ++ hyphensToUnderscores matchId

/-- `GET /api/livescore/:matchId?type=...`: validate the type query
parameter (`none` models an absent parameter), then resolve the
collection named from the raw `matchId` and project. -/
def livescoreResolve (store : SnapshotStore) (matchId : String)
    (ty : Option String) : Resp :=
  match ty with
  | none => ⟨400, .err "Invalid type parameter. Use 'alive_status' or 'points_table'"⟩
  | some t =>
    if !(["alive_status", "points_table"].contains t) then
      ⟨400, .err "Invalid type parameter. Use 'alive_status' or 'points_table'"⟩
    else
      let collectionName := rawCollectionName matchId
      if store.names.contains collectionName then
        match findLatest (store.docsOf collectionName) with
        | none => ⟨404, .err "No match data found"⟩
        | some latestMatch =>
          ⟨200, .dataOk (jsGet latestMatch "matchId") (jsGet latestMatch "timestamp")
              (extractData t latestMatch)⟩
      else ⟨404, .err "Match not found"⟩

/-- `GET /api/livescore/:matchId/full`: same raw collection naming,
returning the entire latest document. -/
def livescoreFull (store : SnapshotStore) (matchId : String) : Resp :=
  let collectionName := rawCollectionName matchId
  if store.names.contains collectionName then
    match findLatest (store.docsOf collectionName) with
    | none => ⟨404, .err "No match data found"⟩
    | some latestMatch =>
      ⟨200, .dataOk (jsGet latestMatch "matchId") (jsGet latestMatch "timestamp")
          latestMatch⟩
  else ⟨404, .err "Match not found"⟩

/-- Look up a link document by its (uniquely indexed) `linkId`. -/
def lookupLink (db : List ApiLink) (linkId : String) : Option ApiLink :=
  db.find? (fun l => l.linkId == linkId)

/-- Telemetry fields (`accessCount`, `lastAccessed`) preserved between
two link documents. -/
def sameTelemetry (a b : ApiLink) : Prop :=
  b.accessCount = a.accessCount ∧ b.lastAccessed = a.lastAccessed

/-- A disabled link fixture used by concrete witnesses. -/
def wLinkDisabled : ApiLink :=
  { userId := "u1", linkId := "tok123", matchId := "m-1", type := "full",
    isActive := false, lastAccessed := none, accessCount := 3 }

/-- An enabled link fixture used by concrete witnesses. -/
def wLinkEnabled : ApiLink :=
  { userId := "u1", linkId := "tok9", matchId := "m-1", type := "full",
    isActive := true, lastAccessed := none, accessCount := 5 }

/-- A link fixture whose token collides with every generation attempt. -/
def dupLink : ApiLink :=
  { userId := "u0", linkId := "DUP", matchId := "m", type := "full",
    isActive := true, lastAccessed := none, accessCount := 0 }

/-- A link fixture owned by user u1, used by the update witness. -/
def uLink : ApiLink :=
  { userId := "u1", linkId := "L1", matchId := "old-match", type := "full",
    isActive := true, lastAccessed := some 2, accessCount := 9 }

/-- A link fixture owned by user U1, used by the foreign-delete witness. -/
def o1Link : ApiLink :=
  { userId := "U1", linkId := "T1", matchId := "m-7", type := "points_table",
    isActive := true, lastAccessed := none, accessCount := 4 }

/-- A link fixture in a duplicate-free directory, used by the frame
witness. -/
def n1Link : ApiLink :=
  { userId := "u1", linkId := "A1", matchId := "m-1", type := "full",
    isActive := true, lastAccessed := some 3, accessCount := 2 }

end VmixServer

namespace VmixServer

/-! ## Helper lemmas -/

-- `find?` returns the updated document after a save when some document
-- with the updated `linkId` is present.
theorem lookupLink_saveLink_of_mem (db : List ApiLink) (upd : ApiLink)
    (h : ∃ l ∈ db, l.linkId = upd.linkId) :
    lookupLink (saveLink db upd) upd.linkId = some upd := by
  induction db with
  | nil => simp at h
  | cons a as ih =>
    by_cases ha : a.linkId = upd.linkId
    · simp [saveLink, lookupLink, ha]
    · rcases h with ⟨l, hl, hid⟩
      have hlmem : l ∈ as := by
        rcases List.mem_cons.mp hl with rfl | htail
        · exact absurd hid ha
        · exact htail
      have hstep : saveLink (a :: as) upd = a :: saveLink as upd := by
        simp [saveLink, ha]
      rw [hstep]
      unfold lookupLink
      rw [List.find?_cons_of_neg _ (by simp [ha])]
      exact ih ⟨l, hlmem, hid⟩

-- Once an active link is found, the resulting link collection is the
-- one with the incremented telemetry saved, whatever the data outcome.
theorem publicResolve_saves_telemetry (db : List ApiLink) (store : SnapshotStore)
    (token : String) (now : Int) (apiLink : ApiLink)
    (h : findActiveByToken db token = some apiLink) :
    (publicResolve db store token now).2 = saveLink db
      { apiLink with accessCount := apiLink.accessCount + 1, lastAccessed := some now } := by
  unfold publicResolve
  rw [h]
  dsimp only
  split
  · split <;> rfl
  · rfl

-- Once an active link is found, the resolver answers with the
-- match-data-not-found error exactly when the collection named by the
-- trim-and-underscore transform of the link's matchId does not exist.
theorem publicResolve_matchDataNotFound_iff (db : List ApiLink) (store : SnapshotStore)
    (token : String) (now : Int) (apiLink : ApiLink)
    (h : findActiveByToken db token = some apiLink) :
    ((publicResolve db store token now).1 = ⟨404, .err "Match data not found"⟩
      ↔ store.names.contains
          ("match_" ++ hyphensToUnderscores (jsTrim apiLink.matchId)) = false) := by
  unfold publicResolve
  rw [h]
  dsimp only
  simp only [collectionNameOf]
  cases hc : store.names.contains ("match_" ++ hyphensToUnderscores (jsTrim apiLink.matchId)) with
  | false => simp
  | true =>
    simp only [show (true = true) = True from by simp, if_true]
    split <;> simp

-- An ownership query fails when no document matches both token and
-- caller.
theorem findByTokenAndOwner_eq_none (db : List ApiLink) (lid caller : String)
    (h : ∀ l ∈ db, ¬(l.linkId = lid ∧ l.userId = caller)) :
    findByTokenAndOwner db lid caller = none := by
  unfold findByTokenAndOwner
  rw [List.find?_eq_none]
  intro l hl
  simp only [Bool.and_eq_true, beq_iff_eq]
  exact h l hl

-- The retry loop started at attempt `a` exhausts exactly when every
-- remaining attempt collides with an existing token.
theorem generateUniqueLinkId_none_iff_aux (gen : Nat → String) (db : List ApiLink) :
    ∀ fuel a, 10 - a = fuel →
      (generateUniqueLinkId gen db a = none ↔
        ∀ k, a ≤ k → k < 10 → ∃ l ∈ db, l.linkId = gen k) := by
  intro fuel
  induction fuel with
  | zero =>
    intro a ha
    have h10 : ¬ a < 10 := by omega
    rw [generateUniqueLinkId, if_neg h10]
    simp only [true_iff]
    intro k hak hk
    exact absurd hk (by omega)
  | succ n ih =>
    intro a ha
    have h10 : a < 10 := by omega
    rw [generateUniqueLinkId, if_pos h10]
    dsimp only
    by_cases hc : db.any (fun l => l.linkId == gen a)
    · rw [if_pos hc, ih (a + 1) (by omega)]
      constructor
      · intro hall k hak hk
        rcases Nat.eq_or_lt_of_le hak with heq | hlt
        · subst heq
          rcases List.any_eq_true.mp hc with ⟨l, hl, hid⟩
          exact ⟨l, hl, by simpa using hid⟩
        · exact hall k hlt hk
      · intro hall k hak hk
        exact hall k (by omega) hk
    · rw [if_neg hc]
      constructor
      · intro h
        exact absurd h (by simp)
      · intro hall
        exfalso
        apply hc
        rw [List.any_eq_true]
        rcases hall a (Nat.le_refl a) h10 with ⟨l, hl, hid⟩
        exact ⟨l, hl, by simp [hid]⟩

-- A save relates the old and new collections pointwise by `R` when `R`
-- is reflexive and holds between any matching document and the update.
theorem forall₂_saveLink {R : ApiLink → ApiLink → Prop} (hrefl : ∀ a, R a a)
    (db : List ApiLink) (upd : ApiLink)
    (h : ∀ a ∈ db, a.linkId = upd.linkId → R a upd) :
    List.Forall₂ R db (saveLink db upd) := by
  induction db with
  | nil => exact List.Forall₂.nil
  | cons a as ih =>
    have hstep : saveLink (a :: as) upd
        = (if a.linkId == upd.linkId then upd else a) :: saveLink as upd := rfl
    rw [hstep]
    by_cases ha : a.linkId = upd.linkId
    · rw [if_pos (by simp [ha])]
      exact List.Forall₂.cons (h a (List.mem_cons_self a as) ha)
        (ih (fun b hb => h b (List.mem_cons_of_mem a hb)))
    · rw [if_neg (by simp [ha])]
      exact List.Forall₂.cons (hrefl a) (ih (fun b hb => h b (List.mem_cons_of_mem a hb)))

-- In a duplicate-free directory the only document matching the update's
-- `linkId` is the found link itself.
theorem forall₂_saveLink_nodup {R : ApiLink → ApiLink → Prop} (hrefl : ∀ a, R a a)
    (db : List ApiLink) (hnd : (db.map (fun l => l.linkId)).Nodup)
    (link upd : ApiLink) (hmem : link ∈ db) (hid : upd.linkId = link.linkId)
    (hR : R link upd) :
    List.Forall₂ R db (saveLink db upd) := by
  apply forall₂_saveLink hrefl
  intro a ha haid
  have heq : a = link :=
    List.inj_on_of_nodup_map hnd ha hmem (by rw [haid, hid])
  rw [heq]
  exact hR

-- The update route either leaves the collection unchanged or saves a
-- telemetry-preserving modification of a stored link.
theorem updateApiLink_snd_shape (db : List ApiLink) (c lid : String) (m t : Option String) :
    (updateApiLink db c lid m t).2 = db
    ∨ ∃ link upd, link ∈ db ∧ upd.linkId = link.linkId ∧ sameTelemetry link upd
        ∧ (updateApiLink db c lid m t).2 = saveLink db upd := by
  rcases m with _ | m
  · left; rfl
  rcases t with _ | t
  · left; rfl
  by_cases h1 : (m == "" || t == "") = true
  · left; simp [updateApiLink, h1]
  have h1' : (m == "" || t == "") = false := by simpa using h1
  by_cases h2 : validTypes.contains t = true
  · have h2m : t ∈ validTypes := by simpa using h2
    cases hf : findByTokenAndOwner db lid c with
    | none => left; simp [updateApiLink, h1', h2, h2m, hf]
    | some link =>
      right
      refine ⟨link, { link with matchId := jsTrim m, type := t },
        List.mem_of_find?_eq_some hf, rfl, ⟨rfl, rfl⟩, ?_⟩
      simp [updateApiLink, h1', h2, h2m, hf]
  · have h2m : t ∉ validTypes := by simpa using h2
    left; simp [updateApiLink, h1', h2m]

-- As above for the toggle route.
theorem toggleApiLink_snd_shape (db : List ApiLink) (c lid : String) :
    (toggleApiLink db c lid).2 = db
    ∨ ∃ link upd, link ∈ db ∧ upd.linkId = link.linkId ∧ sameTelemetry link upd
        ∧ (toggleApiLink db c lid).2 = saveLink db upd := by
  cases hf : findByTokenAndOwner db lid c with
  | none => left; simp [toggleApiLink, hf]
  | some link =>
    right
    exact ⟨link, { link with isActive := !link.isActive },
      List.mem_of_find?_eq_some hf, rfl, ⟨rfl, rfl⟩, by simp [toggleApiLink, hf]⟩

-- As above for the explicit-status route.
theorem setApiLinkStatus_snd_shape (db : List ApiLink) (c lid : String) (b : Option Bool) :
    (setApiLinkStatus db c lid b).2 = db
    ∨ ∃ link upd, link ∈ db ∧ upd.linkId = link.linkId ∧ sameTelemetry link upd
        ∧ (setApiLinkStatus db c lid b).2 = saveLink db upd := by
  rcases b with _ | b
  · left; rfl
  cases hf : findByTokenAndOwner db lid c with
  | none => left; simp [setApiLinkStatus, hf]
  | some link =>
    right
    exact ⟨link, { link with isActive := b },
      List.mem_of_find?_eq_some hf, rfl, ⟨rfl, rfl⟩, by simp [setApiLinkStatus, hf]⟩

-- The public resolver either leaves the collection unchanged or saves
-- the telemetry increment of a stored link.
theorem publicResolve_snd_shape (db : List ApiLink) (store : SnapshotStore)
    (token : String) (now : Int) :
    (publicResolve db store token now).2 = db
    ∨ ∃ link, link ∈ db
        ∧ (publicResolve db store token now).2
            = saveLink db { link with accessCount := link.accessCount + 1,
                                      lastAccessed := some now } := by
  cases hf : findActiveByToken db token with
  | none => left; unfold publicResolve; rw [hf]
  | some link =>
    right
    exact ⟨link, List.mem_of_find?_eq_some hf,
      publicResolve_saves_telemetry db store token now link hf⟩

/-! ## Claims -/

/-- Claim C1: for every token, when every link carrying that token is
disabled — which covers both the token-never-existed case (vacuously)
and the token-exists-but-disabled case — the public resolver returns
the one fixed NotFound response `{success: false, error: "Not found"}`
with status 404 and leaves the directory untouched, so the two failure
cases are indistinguishable to the caller. -/
theorem publicResolver_notFound_indistinguishable
    (db : List ApiLink) (store : SnapshotStore) (token : String) (now : Int)
    (h : ∀ l ∈ db, l.linkId = token → l.isActive = false) :
    publicResolve db store token now = (⟨404, .err "Not found"⟩, db) := by
  have hfind : findActiveByToken db token = none := by
    unfold findActiveByToken
    rw [List.find?_eq_none]
    intro l hl
    simp only [Bool.and_eq_true, beq_iff_eq, not_and]
    intro hid
    simp [h l hl hid]
  simp [publicResolve, hfind]

theorem publicResolver_notFound_indistinguishable_witness :
    (∀ l ∈ [wLinkDisabled], l.linkId = "tok123" → l.isActive = false)
    ∧ publicResolve [wLinkDisabled] ⟨[]⟩ "tok123" 0
        = (⟨404, .err "Not found"⟩, [wLinkDisabled]) :=
  ⟨by decide,
    publicResolver_notFound_indistinguishable [wLinkDisabled] ⟨[]⟩ "tok123" 0 (by decide)⟩

/-- Claim C2: when the resolver accepts an enabled link for a token, the
stored link afterwards has its access count incremented by exactly one
and its last-accessed stamp set to the resolution time; and when the
match's snapshot collection does not exist, the resolver still answers
NotFound ("Match data not found") while the telemetry update is
retained. -/
theorem publicResolver_telemetry_update
    (db : List ApiLink) (store : SnapshotStore) (token : String) (now : Int)
    (apiLink : ApiLink) (h : findActiveByToken db token = some apiLink) :
    lookupLink (publicResolve db store token now).2 apiLink.linkId
      = some { apiLink with accessCount := apiLink.accessCount + 1, lastAccessed := some now }
    ∧ (store.names.contains (collectionNameOf apiLink.matchId) = false →
       (publicResolve db store token now).1 = ⟨404, .err "Match data not found"⟩) := by
  constructor
  · rw [publicResolve_saves_telemetry db store token now apiLink h]
    exact lookupLink_saveLink_of_mem db _ ⟨apiLink, List.mem_of_find?_eq_some h, rfl⟩
  · intro hc
    unfold publicResolve
    rw [h]
    dsimp only
    rw [hc]
    rfl

theorem publicResolver_telemetry_update_witness :
    (findActiveByToken [wLinkEnabled] "tok9" = some wLinkEnabled
      ∧ (SnapshotStore.mk []).names.contains (collectionNameOf wLinkEnabled.matchId) = false)
    ∧ lookupLink (publicResolve [wLinkEnabled] ⟨[]⟩ "tok9" 7).2 wLinkEnabled.linkId
        = some { wLinkEnabled with accessCount := wLinkEnabled.accessCount + 1,
                                   lastAccessed := some 7 }
    ∧ (publicResolve [wLinkEnabled] ⟨[]⟩ "tok9" 7).1 = ⟨404, .err "Match data not found"⟩ :=
  ⟨⟨rfl, rfl⟩,
    (publicResolver_telemetry_update [wLinkEnabled] ⟨[]⟩ "tok9" 7 wLinkEnabled rfl).1,
    (publicResolver_telemetry_update [wLinkEnabled] ⟨[]⟩ "tok9" 7 wLinkEnabled rfl).2 rfl⟩

/-- Claim C3: the snapshot collection the public resolver consults for an
accepted link is exactly the pure function of the link's matchId given
by trimming surrounding whitespace, replacing every hyphen with an
underscore and prefixing the fixed marker `match_`: the resolver
answers "Match data not found" precisely when the collection with that
derived name is absent from the store. -/
theorem publicResolver_collection_naming
    (db : List ApiLink) (store : SnapshotStore) (token : String) (now : Int)
    (apiLink : ApiLink) (h : findActiveByToken db token = some apiLink) :
    ((publicResolve db store token now).1 = ⟨404, .err "Match data not found"⟩
      ↔ store.names.contains
          ("match_" ++ hyphensToUnderscores (jsTrim apiLink.matchId)) = false) :=
  publicResolve_matchDataNotFound_iff db store token now apiLink h

theorem publicResolver_collection_naming_witness :
    findActiveByToken [wLinkEnabled] "tok9" = some wLinkEnabled
    ∧ ((publicResolve [wLinkEnabled] ⟨[("match_m_1", [])]⟩ "tok9" 0).1
          = ⟨404, .err "Match data not found"⟩
        ↔ (SnapshotStore.mk [("match_m_1", [])]).names.contains
            ("match_" ++ hyphensToUnderscores (jsTrim wLinkEnabled.matchId)) = false) :=
  ⟨rfl, publicResolver_collection_naming [wLinkEnabled] ⟨[("match_m_1", [])]⟩ "tok9" 0
    wLinkEnabled rfl⟩

/-- Claim C4: the view projector is total on all snapshots: for the
points-table view it yields exactly the standings-or-empty-list and
summary-or-empty-object pair, for the alive-status view exactly the
team-status-or-empty-list and summary-or-empty-object pair, and for the
full view the snapshot unchanged; a snapshot missing the standings,
team-status or summary field yields empty containers instead of an
error, and a present truthy field passes through unchanged. -/
theorem viewProjector_total_defaults (doc : MatchDoc) :
    (extractData "full" doc = doc)
    ∧ (extractData "points_table" doc =
        [("pointsTable", jsOr (jsGet doc "pointsTable") (.arr [])),
         ("matchSummary", jsOr (jsGet doc "MatchSummary1") (.obj []))])
    ∧ (extractData "alive_status" doc =
        [("teamStats", jsOr (jsGet doc "TeamStats1") (.arr [])),
         ("matchSummary", jsOr (jsGet doc "MatchSummary1") (.obj []))])
    ∧ (jsGet doc "pointsTable" = none →
        jsGet (extractData "points_table" doc) "pointsTable" = some (.arr []))
    ∧ (jsGet doc "TeamStats1" = none →
        jsGet (extractData "alive_status" doc) "teamStats" = some (.arr []))
    ∧ (jsGet doc "MatchSummary1" = none →
        jsGet (extractData "points_table" doc) "matchSummary" = some (.obj [])
        ∧ jsGet (extractData "alive_status" doc) "matchSummary" = some (.obj []))
    ∧ (∀ v, jsGet doc "pointsTable" = some v → v.isFalsy = false →
        jsGet (extractData "points_table" doc) "pointsTable" = some v)
    ∧ (∀ v, jsGet doc "TeamStats1" = some v → v.isFalsy = false →
        jsGet (extractData "alive_status" doc) "teamStats" = some v) := by
  have hp : extractData "points_table" doc =
      [("pointsTable", jsOr (jsGet doc "pointsTable") (.arr [])),
       ("matchSummary", jsOr (jsGet doc "MatchSummary1") (.obj []))] := by
    simp [extractData]
  have ha : extractData "alive_status" doc =
      [("teamStats", jsOr (jsGet doc "TeamStats1") (.arr [])),
       ("matchSummary", jsOr (jsGet doc "MatchSummary1") (.obj []))] := by
    simp [extractData]
  refine ⟨by simp [extractData], hp, ha,
    fun h => ?_, fun h => ?_, fun h => ⟨?_, ?_⟩, fun v hv hf => ?_, fun v hv hf => ?_⟩
  · rw [hp, h]; simp [jsGet, jsOr]
  · rw [ha, h]; simp [jsGet, jsOr]
  · rw [hp, h]; simp [jsGet, jsOr]
  · rw [ha, h]; simp [jsGet, jsOr]
  · rw [hp, hv]; simp [jsGet, jsOr, hf]
  · rw [ha, hv]; simp [jsGet, jsOr, hf]

theorem viewProjector_total_defaults_witness :
    jsGet ([] : MatchDoc) "pointsTable" = none
    ∧ jsGet (extractData "points_table" []) "pointsTable" = some (.arr []) :=
  ⟨rfl, (viewProjector_total_defaults []).2.2.2.1 rfl⟩

/-- Claim C5: every generated token has exactly 16 characters drawn from
the 62-symbol alphanumeric alphabet; the creation retry loop fails after
exactly its 10 attempts precisely when every generated candidate
collides with an existing token; and when all attempts collide the
create operation returns the 500 ServerError and leaves the directory
unchanged (no link is created).  The loop is a total function, so it
terminates within the retry bound. -/
theorem tokenGeneration_retry_bounded :
    (∀ rand : Nat → Nat, (generateLinkId rand).length = 16
      ∧ ∀ c ∈ (generateLinkId rand).toList, c ∈ linkIdChars.toList)
    ∧ (∀ (gen : Nat → String) (db : List ApiLink),
        generateUniqueLinkId gen db 0 = none ↔
          ∀ k, k < 10 → ∃ l ∈ db, l.linkId = gen k)
    ∧ (∀ (gen : Nat → String) (db : List ApiLink) (callerId m t : String),
        m ≠ "" → t ∈ validTypes →
        (∀ k, k < 10 → ∃ l ∈ db, l.linkId = gen k) →
        createApiLink gen db callerId (some m) (some t)
          = (⟨500, .err "Failed to generate unique link ID"⟩, db)) := by
  refine ⟨fun rand => ⟨?_, ?_⟩, fun gen db => ?_, fun gen db callerId m t hm ht hcol => ?_⟩
  · rw [show (generateLinkId rand).length
          = ((List.range 16).map
              (fun i => linkIdChars.toList.getD (rand i % linkIdChars.length) 'A')).length
        from rfl]
    rw [List.length_map, List.length_range]
  · intro c hc
    have hrepr : (generateLinkId rand).toList
        = (List.range 16).map
            (fun i => linkIdChars.toList.getD (rand i % linkIdChars.length) 'A') := rfl
    rw [hrepr] at hc
    rcases List.mem_map.mp hc with ⟨i, _, rfl⟩
    have hlt : rand i % linkIdChars.length < linkIdChars.toList.length := by
      have h1 : linkIdChars.length = 62 := rfl
      have h2 : linkIdChars.toList.length = 62 := rfl
      rw [h1, h2]
      omega
    rw [List.getD_eq_getElem?_getD, List.getElem?_eq_getElem hlt, Option.getD_some]
    exact List.getElem_mem hlt
  · have haux := generateUniqueLinkId_none_iff_aux gen db 10 0 rfl
    rw [haux]
    constructor
    · intro hall k hk
      exact hall k (Nat.zero_le k) hk
    · intro hall k _ hk
      exact hall k hk
  · have hnone : generateUniqueLinkId gen db 0 = none := by
      rw [generateUniqueLinkId_none_iff_aux gen db 10 0 rfl]
      intro k _ hk
      exact hcol k hk
    have hm' : (m == "") = false := by simp [hm]
    simp only [validTypes, List.mem_cons, List.not_mem_nil, or_false] at ht
    rcases ht with rfl | rfl | rfl <;>
      simp [createApiLink, hm', hnone, validTypes]

theorem tokenGeneration_retry_bounded_witness :
    ("m" ≠ "" ∧ "full" ∈ validTypes
      ∧ ∀ k, k < 10 → ∃ l ∈ [dupLink], l.linkId = (fun _ : Nat => "DUP") k)
    ∧ createApiLink (fun _ => "DUP") [dupLink] "u1" (some "m") (some "full")
        = (⟨500, .err "Failed to generate unique link ID"⟩, [dupLink]) :=
  ⟨⟨by decide, by decide, by decide⟩,
    tokenGeneration_retry_bounded.2.2 (fun _ => "DUP") [dupLink] "u1" "m" "full"
      (by decide) (by decide) (by decide)⟩

/-- Claim C6: the update route rejects a missing (or empty) matchId or
viewType with the required-fields ValidationError, rejects an
unrecognized viewType with the invalid-type ValidationError, reports
NotFound when no link with that token is owned by the caller, and only
when all checks pass stores the whitespace-trimmed matchId and the new
viewType on the caller's link. -/
theorem updateLink_validation_ownership (db : List ApiLink) (caller lid : String) :
    (∀ m t, (m = none ∨ m = some "" ∨ t = none ∨ t = some "") →
      updateApiLink db caller lid m t = (⟨400, .err "Match ID and type are required"⟩, db))
    ∧ (∀ m t, m ≠ "" → t ≠ "" → t ∉ validTypes →
        updateApiLink db caller lid (some m) (some t)
          = (⟨400, .err "Invalid type. Use: full, alive_status, or points_table"⟩, db))
    ∧ (∀ m t, m ≠ "" → t ∈ validTypes →
        (∀ l ∈ db, ¬(l.linkId = lid ∧ l.userId = caller)) →
        updateApiLink db caller lid (some m) (some t)
          = (⟨404, .err "API link not found"⟩, db))
    ∧ (∀ m t apiLink, m ≠ "" → t ∈ validTypes →
        findByTokenAndOwner db lid caller = some apiLink →
        updateApiLink db caller lid (some m) (some t)
          = (⟨200, .linkOk { apiLink with matchId := jsTrim m, type := t }⟩,
             saveLink db { apiLink with matchId := jsTrim m, type := t })) := by
  refine ⟨fun m t hcase => ?_, fun m t hm ht htv => ?_,
    fun m t hm ht hown => ?_, fun m t apiLink hm ht hfind => ?_⟩
  · rcases hcase with rfl | rfl | rfl | rfl
    · cases t <;> rfl
    · cases t with
      | none => rfl
      | some t => simp [updateApiLink]
    · cases m <;> rfl
    · cases m with
      | none => rfl
      | some m => simp [updateApiLink]
  · have hm' : (m == "") = false := by simp [hm]
    have ht' : (t == "") = false := by simp [ht]
    simp only [validTypes, List.mem_cons, List.not_mem_nil, or_false, not_or] at htv
    obtain ⟨h1, h2, h3⟩ := htv
    simp [updateApiLink, hm', ht', validTypes, List.contains_eq_any_beq, h1, h2, h3]
  · have hm' : (m == "") = false := by simp [hm]
    have hfind := findByTokenAndOwner_eq_none db lid caller hown
    simp only [validTypes, List.mem_cons, List.not_mem_nil, or_false] at ht
    rcases ht with rfl | rfl | rfl <;>
      simp [updateApiLink, hm', hfind, validTypes]
  · have hm' : (m == "") = false := by simp [hm]
    simp only [validTypes, List.mem_cons, List.not_mem_nil, or_false] at ht
    rcases ht with rfl | rfl | rfl <;>
      simp [updateApiLink, hm', hfind, validTypes]

theorem updateLink_validation_ownership_witness :
    ("new-m" ≠ "" ∧ "alive_status" ∈ validTypes
      ∧ findByTokenAndOwner [uLink] "L1" "u1" = some uLink)
    ∧ updateApiLink [uLink] "u1" "L1" (some "new-m") (some "alive_status")
        = (⟨200, .linkOk { uLink with matchId := jsTrim "new-m", type := "alive_status" }⟩,
           saveLink [uLink] { uLink with matchId := jsTrim "new-m", type := "alive_status" }) :=
  ⟨⟨by decide, by decide, rfl⟩,
    (updateLink_validation_ownership [uLink] "u1" "L1").2.2.2 "new-m" "alive_status" uLink
      (by decide) (by decide) rfl⟩

/-- Claim C7: when no link with the given token is owned by the caller —
whether the token does not exist at all or the link belongs to another
user — the delete route reports NotFound (never a forbidden error) and
the directory is unchanged, so another owner's link remains present. -/
theorem deleteLink_foreign_notFound (db : List ApiLink) (caller lid : String)
    (h : ∀ l ∈ db, ¬(l.linkId = lid ∧ l.userId = caller)) :
    deleteApiLink db caller lid = (⟨404, .err "API link not found"⟩, db)
    ∧ ∀ l ∈ db, l ∈ (deleteApiLink db caller lid).2 := by
  have hfind := findByTokenAndOwner_eq_none db lid caller h
  have heq : deleteApiLink db caller lid = (⟨404, .err "API link not found"⟩, db) := by
    unfold deleteApiLink
    rw [hfind]
  exact ⟨heq, fun l hl => by rw [heq]; exact hl⟩

theorem deleteLink_foreign_notFound_witness :
    (∀ l ∈ [o1Link], ¬(l.linkId = "T1" ∧ l.userId = "U2"))
    ∧ deleteApiLink [o1Link] "U2" "T1" = (⟨404, .err "API link not found"⟩, [o1Link])
    ∧ o1Link ∈ (deleteApiLink [o1Link] "U2" "T1").2 :=
  ⟨by decide, (deleteLink_foreign_notFound [o1Link] "U2" "T1" (by decide)).1,
    (deleteLink_foreign_notFound [o1Link] "U2" "T1" (by decide)).2 o1Link (by decide)⟩

/-- Claim C8: creating a link with matchId " m-1 " (surrounding
whitespace) behaves identically to creating one with matchId "m-1": the
entire create result — stored link included — is equal, and the snapshot
collection name the public resolver derives is the same for both. -/
theorem createLink_trim_roundtrip (gen : Nat → String) (db : List ApiLink)
    (caller : String) (ty : Option String) :
    createApiLink gen db caller (some " m-1 ") ty = createApiLink gen db caller (some "m-1") ty
    ∧ collectionNameOf " m-1 " = collectionNameOf "m-1" := by
  constructor
  · cases ty with
    | none => rfl
    | some t =>
      have h1 : jsTrim " m-1 " = jsTrim "m-1" := by decide
      have h2 : ((" m-1 " : String) == "") = false := by decide
      have h3 : (("m-1" : String) == "") = false := by decide
      simp only [createApiLink, h1, h2, h3]
  · decide

/-- Claim C9: in a directory with no duplicate tokens, the update, toggle
and explicit-status routes leave every link's accessCount and
lastAccessed unchanged; the public resolver only ever increases
accessCount (and keeps every linkId); creation only appends to the
directory; deletion only removes documents.  Hence the telemetry fields
are mutated only by the public resolver and accessCount never
decreases. -/
theorem telemetry_frame_and_monotonicity :
    (∀ (db : List ApiLink) (c lid : String) (m t : Option String),
      (db.map (fun l => l.linkId)).Nodup →
      List.Forall₂ sameTelemetry db (updateApiLink db c lid m t).2)
    ∧ (∀ (db : List ApiLink) (c lid : String),
      (db.map (fun l => l.linkId)).Nodup →
      List.Forall₂ sameTelemetry db (toggleApiLink db c lid).2)
    ∧ (∀ (db : List ApiLink) (c lid : String) (b : Option Bool),
      (db.map (fun l => l.linkId)).Nodup →
      List.Forall₂ sameTelemetry db (setApiLinkStatus db c lid b).2)
    ∧ (∀ (db : List ApiLink) (store : SnapshotStore) (token : String) (now : Int),
      (db.map (fun l => l.linkId)).Nodup →
      List.Forall₂ (fun a b => a.linkId = b.linkId ∧ a.accessCount ≤ b.accessCount)
        db (publicResolve db store token now).2)
    ∧ (∀ (gen : Nat → String) (db : List ApiLink) (c : String) (m t : Option String),
      ∃ rest, (createApiLink gen db c m t).2 = db ++ rest)
    ∧ (∀ (db : List ApiLink) (c lid : String),
      ((deleteApiLink db c lid).2).Sublist db) := by
  refine ⟨fun db c lid m t hnd => ?_, fun db c lid hnd => ?_, fun db c lid b hnd => ?_,
    fun db store token now hnd => ?_, fun gen db c m t => ?_, fun db c lid => ?_⟩
  · rcases updateApiLink_snd_shape db c lid m t with heq | ⟨link, upd, hmem, hid, hR, heq⟩
    · rw [heq]; exact List.forall₂_same.mpr (fun x _ => ⟨rfl, rfl⟩)
    · rw [heq]; exact forall₂_saveLink_nodup (fun a => ⟨rfl, rfl⟩) db hnd link upd hmem hid hR
  · rcases toggleApiLink_snd_shape db c lid with heq | ⟨link, upd, hmem, hid, hR, heq⟩
    · rw [heq]; exact List.forall₂_same.mpr (fun x _ => ⟨rfl, rfl⟩)
    · rw [heq]; exact forall₂_saveLink_nodup (fun a => ⟨rfl, rfl⟩) db hnd link upd hmem hid hR
  · rcases setApiLinkStatus_snd_shape db c lid b with heq | ⟨link, upd, hmem, hid, hR, heq⟩
    · rw [heq]; exact List.forall₂_same.mpr (fun x _ => ⟨rfl, rfl⟩)
    · rw [heq]; exact forall₂_saveLink_nodup (fun a => ⟨rfl, rfl⟩) db hnd link upd hmem hid hR
  · rcases publicResolve_snd_shape db store token now with heq | ⟨link, hmem, heq⟩
    · rw [heq]; exact List.forall₂_same.mpr (fun x _ => ⟨rfl, Nat.le_refl _⟩)
    · rw [heq]
      exact forall₂_saveLink_nodup (fun a => ⟨rfl, Nat.le_refl _⟩) db hnd link _ hmem rfl
        ⟨rfl, Nat.le_succ _⟩
  · rcases m with _ | m
    · exact ⟨[], by simp [createApiLink]⟩
    rcases t with _ | t
    · exact ⟨[], by simp [createApiLink]⟩
    by_cases h1 : (m == "" || t == "") = true
    · exact ⟨[], by simp [createApiLink, h1]⟩
    have h1' : (m == "" || t == "") = false := by simpa using h1
    by_cases h2 : validTypes.contains t = true
    · have h2m : t ∈ validTypes := by simpa using h2
      cases hg : generateUniqueLinkId gen db 0 with
      | none => exact ⟨[], by simp [createApiLink, h1', h2, h2m, hg]⟩
      | some linkId =>
        exact ⟨[{ userId := c, linkId := linkId, matchId := jsTrim m, type := t,
                  isActive := true, lastAccessed := none, accessCount := 0 }],
          by simp [createApiLink, h1', h2, h2m, hg]⟩
    · have h2m : t ∉ validTypes := by simpa using h2
      exact ⟨[], by simp [createApiLink, h1', h2m]⟩
  · cases hf : findByTokenAndOwner db lid c with
    | none => unfold deleteApiLink; rw [hf]
    | some l =>
      unfold deleteApiLink
      rw [hf]
      exact List.eraseP_sublist db

theorem telemetry_frame_and_monotonicity_witness :
    (([n1Link].map (fun l => l.linkId)).Nodup)
    ∧ List.Forall₂ sameTelemetry [n1Link]
        (updateApiLink [n1Link] "u1" "A1" (some "m-2") (some "full")).2 :=
  ⟨by decide,
    telemetry_frame_and_monotonicity.1 [n1Link] "u1" "A1" (some "m-2") (some "full") (by decide)⟩

/-- Claim C10: the direct livescore routes name the snapshot collection
from the raw path parameter without trimming, so for a matchId with
surrounding whitespace they consult a different collection than the
link-based resolver would (witnessed concretely for " m-1 ") and answer
Match-not-found even when the trimmed match's collection exists, while
the public resolver for a link with the same matchId does not fail with
its match-data-not-found error. -/
theorem livescore_raw_name_mismatch (store : SnapshotStore) (m t : String)
    (ht : t ∈ ["alive_status", "points_table"])
    (hraw : store.names.contains (rawCollectionName m) = false)
    (htrim : store.names.contains (collectionNameOf m) = true) :
    livescoreResolve store m (some t) = ⟨404, .err "Match not found"⟩
    ∧ livescoreFull store m = ⟨404, .err "Match not found"⟩
    ∧ rawCollectionName " m-1 " ≠ collectionNameOf " m-1 "
    ∧ (∀ (db : List ApiLink) (token : String) (now : Int) (apiLink : ApiLink),
        findActiveByToken db token = some apiLink → apiLink.matchId = m →
        (publicResolve db store token now).1 ≠ ⟨404, .err "Match data not found"⟩) := by
  refine ⟨?_, ?_, by decide, ?_⟩
  · have hrawm : rawCollectionName m ∉ store.names := by simpa using hraw
    rcases List.mem_cons.mp ht with rfl | h2
    · simp [livescoreResolve, hrawm]
    · rcases List.mem_cons.mp h2 with rfl | h3
      · simp [livescoreResolve, hrawm]
      · exact absurd h3 (List.not_mem_nil t)
  · have hrawm : rawCollectionName m ∉ store.names := by simpa using hraw
    simp [livescoreFull, hrawm]
  · intro db token now apiLink hf hm
    intro hcontra
    have hiff := (publicResolve_matchDataNotFound_iff db store token now apiLink hf).mp hcontra
    rw [hm] at hiff
    have hfalse : store.names.contains (collectionNameOf m) = false := by
      simpa [collectionNameOf] using hiff
    rw [hfalse] at htrim
    exact Bool.false_ne_true htrim

theorem livescore_raw_name_mismatch_witness :
    ("points_table" ∈ (["alive_status", "points_table"] : List String)
      ∧ (SnapshotStore.mk [("match_m_1", [])]).names.contains
          (rawCollectionName " m-1 ") = false
      ∧ (SnapshotStore.mk [("match_m_1", [])]).names.contains
          (collectionNameOf " m-1 ") = true)
    ∧ livescoreResolve ⟨[("match_m_1", [])]⟩ " m-1 " (some "points_table")
        = ⟨404, .err "Match not found"⟩
    ∧ livescoreFull ⟨[("match_m_1", [])]⟩ " m-1 " = ⟨404, .err "Match not found"⟩ :=
  ⟨⟨by decide, by decide, by decide⟩,
    (livescore_raw_name_mismatch ⟨[("match_m_1", [])]⟩ " m-1 " "points_table"
      (by decide) (by decide) (by decide)).1,
    (livescore_raw_name_mismatch ⟨[("match_m_1", [])]⟩ " m-1 " "points_table"
      (by decide) (by decide) (by decide)).2.1⟩

end VmixServer
